import Mathlib

/-!
Verification development for a browser-automation utility layer
(element resolution, typed input, clear-input, provider-specific
navigation settlement, and scrolling helpers).

Every definition below is a shallow embedding of a function of the
source: machine time is modelled as natural-number milliseconds, the
random source as an explicit rational parameter in the half-open unit
interval, and the page as an abstract map from selector strings to
node lists.
-/

/-- A key action emitted while typing: either a single character is typed,
or a commit-line key action (an Enter press) is issued. -/
inductive KeyAction
  | typeChar (c : Char)
  | commitLine
  deriving DecidableEq, Repr

/-- Embedding of the action sequence of typeText: the text is split on
the newline character; for each line its characters are typed in order,
and after a line an Enter press is issued exactly when the line value
differs from the value of the final line (the source compares the line
string to the element at the last index, not the index itself). The text
is modelled as its character sequence. -/
def typeTextActions (text : List Char) : List KeyAction :=
  let lines := text.splitOn '\n'
  let lastLine := lines.getLastD []
  lines.foldl
    (fun acc line =>
      acc ++ line.map KeyAction.typeChar ++
        (if line ≠ lastLine then [KeyAction.commitLine] else []))
    []

/-- Number of line breaks of a text: occurrences of the newline character. -/
def countLineBreaks (text : List Char) : Nat :=
  text.count '\n'

/-- An abstract page node. -/
structure Node where
  nodeId : Nat
  deriving DecidableEq, Repr

/-- Abstract page: a map from css-like selector strings, and from xpath
strings, to the list of matching nodes in document order. -/
structure Page where
  queryAll : String → List Node
  xpathAll : String → List Node

/-- First match of a css-like query, as the query-selector primitive returns. -/
def Page.query (p : Page) (s : String) : Option Node :=
  (p.queryAll s).head?

/-- First match of an xpath evaluation with first-ordered-node semantics. -/
def Page.xpathFirst (p : Page) (s : String) : Option Node :=
  (p.xpathAll s).head?

/-- Result of element resolution: a single handle, the null handle, or a
handle to a list of matches. -/
inductive ElemResult
  | one (n : Node)
  | nullElem
  | many (ns : List Node)
  deriving DecidableEq, Repr

/-- Whether a resolution result is a not-found result: the null handle or
an empty match list. -/
def ElemResult.isNotFound : ElemResult → Bool
  | .nullElem => true
  | .many [] => true
  | _ => false

/-- The double-quote character as a string, used to build attribute selectors. -/
def dquote : String := "\x22"

/-- The attribute selector built for the id kind. -/
def idSelector (s : String) : String :=
  "[id=" ++ dquote ++ s ++ dquote ++ "]"

/-- Lift an optional first match to a resolution result: absence becomes
the null handle. -/
def optToRes : Option Node → ElemResult
  | some n => .one n
  | none => .nullElem

/-- Embedding of the switch body of getElement: each supported kind
resolves through the page primitives; an unrecognized kind throws. -/
def getElementCore (p : Page) (selector ty : String) : Except String ElemResult :=
  if ty = "id" then .ok (optToRes (p.query (idSelector selector)))
  else if ty = "selector" then .ok (optToRes (p.query selector))
  else if ty = "xpath" then .ok (optToRes (p.xpathFirst selector))
  else if ty = "class" then .ok (optToRes (p.query ("." ++ selector)))
  else if ty = "allSelector" then .ok (.many (p.queryAll selector))
  else if ty = "allXpath" then .ok (.many (p.xpathAll selector))
  else .error ("Unsupported selector type: " ++ ty ++ ".")

/-- Embedding of getElement with its surrounding try-catch: a thrown error
is routed to the shared error handler and the call completes with the
undefined value, modelled as none. -/
def getElement (p : Page) (selector ty : String) : Option ElemResult :=
  match getElementCore p selector ty with
  | .ok r => some r
  | .error _ => none

/-- The selector kinds recognized by the switch of getElement. -/
def supportedKinds : List String :=
  ["id", "selector", "xpath", "class", "allSelector", "allXpath"]

/-- A page on which every query and every xpath evaluation matches zero nodes. -/
def emptyPage : Page :=
  { queryAll := fun _ => [], xpathAll := fun _ => [] }

/-- Embedding of the randomNumber helper: the bounds are swapped when
passed in descending order, and the result is the floor of the random
draw scaled to the inclusive range, shifted by the lower bound. The
random draw r models the library random source, a value in [0, 1). -/
def randomNumber (r : ℚ) (mn mx : ℤ) : ℤ :=
  let p := if mn > mx then (mx, mn) else (mn, mx)
  ⌊r * ((p.2 : ℚ) - (p.1 : ℚ) + 1)⌋ + p.1

/-- An action performed by clearInput after the element is resolved. -/
inductive ClearAction
  | multiClick (count : ℤ)
  | randomWait
  | pressBackspace
  deriving DecidableEq, Repr

/-- Embedding of the action sequence of clearInput with the element found:
a multi-click with a random count drawn by randomNumber over 3 and 6,
then a randomized wait, then a single Backspace press. -/
def clearInputActions (r : ℚ) : List ClearAction :=
  [ .multiClick (randomNumber r 3 6), .randomWait, .pressBackspace ]

/-- Normalization of a bound pair as both scrolling helpers perform it:
the components are swapped exactly when the first exceeds the second. -/
def normPair (mn mx : ℚ) : ℚ × ℚ :=
  if mn > mx then (mx, mn) else (mn, mx)

/-- The observable call randomScroll makes into the page: the speed bounds
handed to the page-evaluation callback and the computed end time. The
end time is the current time plus the random draw scaled over the
normalized time range, shifted by the normalized lower time bound. -/
structure RandomScrollCall where
  maxSpeed : ℚ
  minSpeed : ℚ
  endTime : ℚ
  deriving DecidableEq, Repr

/-- Embedding of randomScroll up to its page evaluation: both bound pairs
are normalized, the end time is computed, and the callback receives the
normalized speed bounds together with the end time. -/
def randomScrollEval (now r maxT minT maxS minS : ℚ) : RandomScrollCall :=
  let t := normPair minT maxT
  let s := normPair minS maxS
  { maxSpeed := s.2, minSpeed := s.1, endTime := now + r * (t.2 - t.1) + t.1 }

/-- The positional arguments, after the selector and the kind, that
scrollToElement hands to its page-evaluation callback, in the order the
call site lists them: the offset, the normalized maximal speed, the
normalized minimal speed, and the end time. -/
structure EvalArgs where
  a3 : ℚ
  a4 : ℚ
  a5 : ℚ
  a6 : ℚ
  deriving DecidableEq, Repr

/-- Embedding of scrollToElement up to its page evaluation: both bound
pairs are normalized, the end time is computed, and the call site passes,
positionally, the offset then the normalized speed bounds then the end
time. -/
def scrollToElementArgs (now r maxT minT maxS minS off : ℚ) : EvalArgs :=
  let t := normPair minT maxT
  let s := normPair minS maxS
  { a3 := off, a4 := s.2, a5 := s.1, a6 := now + r * (t.2 - t.1) + t.1 }

/-- The end time as seen inside the scrollToElement callback: its last
positional argument. -/
def EvalArgs.endTime (a : EvalArgs) : ℚ := a.a6

/-- Embedding of the initial jump of the scrollToElement callback: the
callback declares its parameters in the order maximal speed, minimal
speed, offset, end time after the selector and the kind, so its offset
parameter is bound to the fifth positional argument; the jump target is
the bounding-rect top minus that parameter. -/
def scrollToElementInitialJump (rectTop : ℚ) (args : EvalArgs) : ℚ :=
  rectTop - args.a5

/-- Outcome of a catch block that forwards to the shared error handler:
either the handler is invoked with a diagnostic context, or building the
context itself raises a new error that escapes to the caller. -/
inductive CatchOutcome
  | forwarded (ctx : List (String × String))
  | rethrown (err : String)
  deriving DecidableEq, Repr

/-- Building the shorthand diagnostic object of a catch block: each listed
identifier is looked up in the lexical scope; a name not in scope raises
a reference error. -/
def buildContext (scope : List (String × String)) :
    List String → Except String (List (String × String))
  | [] => .ok []
  | n :: ns =>
    match scope.lookup n with
    | some v => (buildContext scope ns).map (fun ctx => (n, v) :: ctx)
    | none => .error (n ++ " is not defined")

/-- A catch block that forwards the error with a shorthand diagnostic
object: when every identifier resolves the error handler receives the
context; otherwise the reference error escapes to the caller. -/
def catchBlock (scope : List (String × String)) (names : List String) : CatchOutcome :=
  match buildContext scope names with
  | .ok ctx => .forwarded ctx
  | .error e => .rethrown e

/-- Embedding of the catch block of clearInputByXpath: its scope binds the
xpathExpression parameter and the local kind constant, and the shorthand
diagnostic object names selectorExpression and the kind. -/
def clearInputByXpathCatch (xpathExpression : String) : CatchOutcome :=
  catchBlock [("xpathExpression", xpathExpression), ("type", "xpath")]
    ["selectorExpression", "type"]

/-- Embedding of the catch block of clearInputBySelector: its scope binds
the selectorExpression parameter and the local kind constant, and the
shorthand diagnostic object names selectorExpression and the kind. -/
def clearInputBySelectorCatch (selectorExpression : String) : CatchOutcome :=
  catchBlock [("selectorExpression", selectorExpression), ("type", "selector")]
    ["selectorExpression", "type"]

/-- An abstract operation of a navigation-handler body. -/
inductive NavOp
  | attachListener
  | clickElement
  | directWait
  | settleLoopRun
  | logCompleted
  | detachListener
  deriving DecidableEq, Repr

/-- The statement order of the body of handleHotmailNavigation after the
handler closure is defined: attach the framenavigated listener, click,
issue the direct bounded navigation wait, run the stability polling loop,
log completion, detach the listener. -/
def hotmailNavigationOps : List NavOp :=
  [ .attachListener, .clickElement, .directWait, .settleLoopRun,
    .logCompleted, .detachListener ]

/-- The statement order of the body of handleGmailNavigation after the
handler closure is defined: attach the framenavigated listener, click,
issue the direct bounded navigation wait, run the resolving-flag recheck
loop, log completion, detach the listener. -/
def gmailNavigationOps : List NavOp :=
  [ .attachListener, .clickElement, .directWait, .settleLoopRun,
    .logCompleted, .detachListener ]

/-- The session state observed at one tick of a settlement loop: the
resolving guard flag, and the wall-clock milliseconds elapsed since the
last navigation time. -/
structure PollObs where
  resolving : Bool
  timeSinceLastNav : Nat
  deriving DecidableEq, Repr

/-- The resolution condition checked by the Hotmail stability poll: the
resolving flag is false and the elapsed time strictly exceeds the settle
timeout. -/
def hotmailSettleCond (settleTimeout : Nat) (o : PollObs) : Bool :=
  !o.resolving && decide (settleTimeout < o.timeSinceLastNav)

/-- The resolution condition checked by the Gmail recheck interval: the
resolving flag is false; no condition on elapsed time. -/
def gmailSettleCond (o : PollObs) : Bool :=
  !o.resolving

/-- A settlement polling loop with explicit fuel: at tick k the condition
is checked; when it holds the loop resolves at k, otherwise the next tick
is scheduled. The Hotmail loop checks tick 0 immediately; the Gmail
interval first fires at tick 1. -/
def settleLoop (cond : Nat → Bool) : Nat → Nat → Option Nat
  | 0, _ => none
  | fuel + 1, k => if cond k then some k else settleLoop cond fuel (k + 1)

/-- An event delivered to a navigation session: a framenavigated event at
a time for a frame, or completion (success or swallowed timeout) of the
navigation wait started by the handler, at a time. -/
inductive NavEvent
  | frameNavigated (time : Nat) (frameId : Nat)
  | waitDone (time : Nat)
  deriving DecidableEq, Repr

/-- The time at which an event is delivered. -/
def eventTime : NavEvent → Nat
  | .frameNavigated t _ => t
  | .waitDone t => t

/-- The mutable state of one navigation session: the resolving guard flag,
the last navigation time, the last logged frame identifier, and the count
of navigation waits currently in flight. -/
structure SessionState where
  resolving : Bool
  lastNavigationTime : Nat
  lastLoggedFrameID : Option Nat
  waitsInFlight : Nat
  deriving DecidableEq, Repr

/-- The session state at entry of handleHotmailNavigation: the resolving
flag is false, the last navigation time is the entry time, nothing is
logged and no wait is in flight. -/
def initSession (t0 : Nat) : SessionState :=
  { resolving := false, lastNavigationTime := t0,
    lastLoggedFrameID := none, waitsInFlight := 0 }

/-- One step of the Hotmail navigation handler: a framenavigated event
updates the last navigation time and the log de-duplication state, then
starts a navigation wait only when the resolving flag is false, setting
the flag; completion of the wait clears the flag (the finally block) and
retires the wait. -/
def hotmailStep (s : SessionState) : NavEvent → SessionState
  | .frameNavigated t fid =>
    let s1 : SessionState :=
      { s with lastNavigationTime := t,
               lastLoggedFrameID := some fid }
    if s1.resolving then s1
    else { s1 with resolving := true, waitsInFlight := s1.waitsInFlight + 1 }
  | .waitDone _ =>
    if s.resolving then
      { s with resolving := false, waitsInFlight := s.waitsInFlight - 1 }
    else s

/-- One step of the Gmail navigation handler: identical guard structure,
except that the handler does not track a last navigation time. -/
def gmailStep (s : SessionState) : NavEvent → SessionState
  | .frameNavigated _ fid =>
    let s1 : SessionState := { s with lastLoggedFrameID := some fid }
    if s1.resolving then s1
    else { s1 with resolving := true, waitsInFlight := s1.waitsInFlight + 1 }
  | .waitDone _ =>
    if s.resolving then
      { s with resolving := false, waitsInFlight := s.waitsInFlight - 1 }
    else s

/-- The session state after a list of events is delivered in order to the
Hotmail handler. -/
def runHotmailSession (t0 : Nat) (evts : List NavEvent) : SessionState :=
  evts.foldl hotmailStep (initSession t0)

/-- The session state after a list of events is delivered in order to the
Gmail handler. -/
def runGmailSession (t0 : Nat) (evts : List NavEvent) : SessionState :=
  evts.foldl gmailStep (initSession t0)

/-- The events of a trace delivered no later than a time bound. -/
def eventsBefore (bound : Nat) (evts : List NavEvent) : List NavEvent :=
  evts.filter (fun e => eventTime e ≤ bound)

/-- The fixed delay between Hotmail stability rechecks, in milliseconds. -/
def NAVIGATION_RECHECK_DELAY : Nat := 1000

/-- The fixed Gmail recheck interval, in milliseconds. -/
def RECHECK_INTERVAL : Nat := 1500

/-- The observation the Hotmail stability check makes at tick k of a
session that entered at time t0, whose polling loop started at loopStart,
under an event trace: the resolving flag of the session state reached by
the events delivered so far, and the elapsed time since the last
navigation time of that state. -/
def hotmailObs (t0 loopStart : Nat) (evts : List NavEvent) (k : Nat) : PollObs :=
  let nowK := loopStart + k * NAVIGATION_RECHECK_DELAY
  let s := runHotmailSession t0 (eventsBefore nowK evts)
  { resolving := s.resolving, timeSinceLastNav := nowK - s.lastNavigationTime }

/-- The observation the Gmail recheck makes at tick k of a session whose
loop started at loopStart, under an event trace. -/
def gmailObs (t0 loopStart : Nat) (evts : List NavEvent) (k : Nat) : PollObs :=
  let nowK := loopStart + k * RECHECK_INTERVAL
  let s := runGmailSession t0 (eventsBefore nowK evts)
  { resolving := s.resolving, timeSinceLastNav := 0 }

/-- Outcome of the direct bounded post-click navigation wait with its
swallowing catch: either a navigation arrives within the timeout, or the
wait times out and the error is swallowed, completing at the deadline. -/
inductive DirectWaitResult
  | navigated (t : Nat)
  | timedOutSwallowed (completesAt : Nat)
  deriving DecidableEq, Repr

/-- Embedding of the direct post-click navigation wait: it resolves with
the first navigation time inside the window, and otherwise times out at
the deadline with the rejection swallowed. -/
def directPostClickWait (navTimes : List Nat) (clickTime timeout : Nat) : DirectWaitResult :=
  match navTimes.find? (fun t => clickTime ≤ t && t ≤ clickTime + timeout) with
  | some t => .navigated t
  | none => .timedOutSwallowed (clickTime + timeout)

/-- The wait-count invariant of a navigation session: exactly one wait is
in flight while the resolving flag is set, none otherwise. -/
def waitInv (s : SessionState) : Prop :=
  s.waitsInFlight = if s.resolving then 1 else 0

/-- A concrete Hotmail observation trace used to instantiate the
settlement theorem: the resolving flag is always false and the elapsed
quiet time always exceeds the default settle timeout. -/
def hObsW : Nat → PollObs :=
  fun _ => { resolving := false, timeSinceLastNav := 10001 }

/-- A concrete Gmail observation trace used to instantiate the settlement
theorem: the resolving flag is always false. -/
def gObsW : Nat → PollObs :=
  fun _ => { resolving := false, timeSinceLastNav := 0 }

/-- A resolved settlement loop stops at a tick satisfying its condition,
at or after its start tick, and at no earlier checked tick does the
condition hold. -/
theorem settleLoop_spec (cond : Nat → Bool) :
    ∀ fuel s k, settleLoop cond fuel s = some k →
      cond k = true ∧ s ≤ k ∧ ∀ j, s ≤ j → j < k → cond j = false
  | 0, _, _, h => by simp [settleLoop] at h
  | fuel + 1, s, k, h => by
    by_cases hc : cond s = true
    · simp [settleLoop, hc] at h
      subst h
      exact ⟨hc, le_refl s, fun j h1 h2 => absurd h1 (by omega)⟩
    · simp [settleLoop, hc] at h
      obtain ⟨h1, h2, h3⟩ := settleLoop_spec cond fuel (s + 1) k h
      refine ⟨h1, by omega, fun j hj1 hj2 => ?_⟩
      rcases Nat.eq_or_lt_of_le hj1 with rfl | hlt
      · simpa using hc
      · exact h3 j hlt hj2

/-- If the condition holds at some checked tick, the settlement loop with
enough fuel resolves. -/
theorem settleLoop_of_cond (cond : Nat → Bool) :
    ∀ n s, cond (s + n) = true → ∃ j, settleLoop cond (n + 1) s = some j
  | 0, s, h => ⟨s, by simpa [settleLoop] using h⟩
  | n + 1, s, h => by
    by_cases hc : cond s = true
    · exact ⟨s, by simp [settleLoop, hc]⟩
    · obtain ⟨j, hj⟩ := settleLoop_of_cond cond n (s + 1) (by
        have : s + 1 + n = s + (n + 1) := by omega
        rw [this]; exact h)
      exact ⟨j, by simpa [settleLoop, hc] using hj⟩

/-- One Hotmail handler step preserves the wait-count invariant. -/
theorem hotmailStep_waitInv (s : SessionState) (e : NavEvent) (h : waitInv s) :
    waitInv (hotmailStep s e) := by
  cases e with
  | frameNavigated t fid =>
    by_cases hr : s.resolving <;>
      simp [hotmailStep, waitInv, hr] at h ⊢ <;> omega
  | waitDone t =>
    by_cases hr : s.resolving <;>
      simp [hotmailStep, waitInv, hr] at h ⊢ <;> omega

/-- One Gmail handler step preserves the wait-count invariant. -/
theorem gmailStep_waitInv (s : SessionState) (e : NavEvent) (h : waitInv s) :
    waitInv (gmailStep s e) := by
  cases e with
  | frameNavigated t fid =>
    by_cases hr : s.resolving <;>
      simp [gmailStep, waitInv, hr] at h ⊢ <;> omega
  | waitDone t =>
    by_cases hr : s.resolving <;>
      simp [gmailStep, waitInv, hr] at h ⊢ <;> omega

/-- The wait-count invariant is preserved by any event list under any step
function that preserves it. -/
theorem foldl_waitInv (step : SessionState → NavEvent → SessionState)
    (hstep : ∀ s e, waitInv s → waitInv (step s e)) :
    ∀ (evts : List NavEvent) (s : SessionState), waitInv s → waitInv (evts.foldl step s)
  | [], _, h => h
  | e :: es, s, h => foldl_waitInv step hstep es (step s e) (hstep s e h)

/-- The bound pair normalization computes the componentwise minimum and
maximum. -/
theorem normPair_eq_min_max (a b : ℚ) : normPair a b = (min a b, max a b) := by
  unfold normPair
  rcases le_or_lt a b with h | h
  · rw [if_neg (not_lt.mpr h), min_eq_left h, max_eq_right h]
  · rw [if_pos h, min_eq_right (le_of_lt h), max_eq_left (le_of_lt h)]

/-- The bound pair normalization is symmetric in its arguments. -/
theorem normPair_comm (a b : ℚ) : normPair a b = normPair b a := by
  rw [normPair_eq_min_max, normPair_eq_min_max, min_comm, max_comm]

/-- A successful core resolution is what the wrapped getElement returns. -/
theorem getElement_eq_ok (p : Page) (sel ty : String) (res : ElemResult)
    (h : getElementCore p sel ty = .ok res) : getElement p sel ty = some res := by
  simp [getElement, h]

/-- Claim C1: a click handled in Hotmail mode settles only at a poll tick
at which the resolving flag is false and the wall-clock time elapsed since
the last navigation strictly exceeds the settle timeout; a click handled
in Gmail mode settles at the first recheck tick at which the resolving
flag is false, with no condition on elapsed quiet time. -/
theorem settlement_resolution_conditions (st f g k kg : Nat)
    (hObs gObs : Nat → PollObs)
    (hh : settleLoop (fun j => hotmailSettleCond st (hObs j)) f 0 = some k)
    (hg : settleLoop (fun j => gmailSettleCond (gObs j)) g 1 = some kg) :
    ((hObs k).resolving = false ∧ st < (hObs k).timeSinceLastNav) ∧
    ((gObs kg).resolving = false ∧ 1 ≤ kg ∧
      ∀ j, 1 ≤ j → j < kg → (gObs j).resolving = true) := by
  obtain ⟨hc, _, _⟩ := settleLoop_spec _ f 0 k hh
  obtain ⟨gc, gk, gmin⟩ := settleLoop_spec _ g 1 kg hg
  simp only [hotmailSettleCond, Bool.and_eq_true, Bool.not_eq_true',
    decide_eq_true_eq] at hc
  refine ⟨⟨hc.1, hc.2⟩, ?_, gk, fun j h1 h2 => ?_⟩
  · simpa [gmailSettleCond] using gc
  · have := gmin j h1 h2
    simpa [gmailSettleCond] using this

/-- Witness: the settlement conditions instantiated at concrete
observation traces where the Hotmail loop resolves at tick 0 and the
Gmail loop at tick 1. -/
theorem settlement_resolution_conditions_witness :
    ((hObsW 0).resolving = false ∧ 10000 < (hObsW 0).timeSinceLastNav) ∧
    ((gObsW 1).resolving = false ∧ 1 ≤ 1 ∧
      ∀ j, 1 ≤ j → j < 1 → (gObsW j).resolving = true) :=
  settlement_resolution_conditions 10000 1 1 0 1 hObsW gObsW rfl rfl

/-- Claim C2: during any single navigation session, at most one
navigation-wait is in flight at a time in either handler, and a
framenavigated event delivered while the resolving flag is set starts no
new wait and leaves the flag set. -/
theorem at_most_one_wait_in_flight (t0 : Nat) (evts : List NavEvent) :
    (runHotmailSession t0 evts).waitsInFlight ≤ 1 ∧
    (runGmailSession t0 evts).waitsInFlight ≤ 1 ∧
    (∀ lt ll w t fid,
      (hotmailStep ⟨true, lt, ll, w⟩ (.frameNavigated t fid)).waitsInFlight = w ∧
      (hotmailStep ⟨true, lt, ll, w⟩ (.frameNavigated t fid)).resolving = true) ∧
    (∀ lt ll w t fid,
      (gmailStep ⟨true, lt, ll, w⟩ (.frameNavigated t fid)).waitsInFlight = w ∧
      (gmailStep ⟨true, lt, ll, w⟩ (.frameNavigated t fid)).resolving = true) := by
  refine ⟨?_, ?_, ?_, ?_⟩
  · have h := foldl_waitInv hotmailStep hotmailStep_waitInv evts (initSession t0)
      (by simp [waitInv, initSession])
    unfold waitInv at h
    unfold runHotmailSession
    rw [h]
    split <;> omega
  · have h := foldl_waitInv gmailStep gmailStep_waitInv evts (initSession t0)
      (by simp [waitInv, initSession])
    unfold waitInv at h
    unfold runGmailSession
    rw [h]
    split <;> omega
  · intro lt ll w t fid
    exact ⟨rfl, rfl⟩
  · intro lt ll w t fid
    exact ⟨rfl, rfl⟩

/-- Claim C3: in both navigation handlers, the framenavigated listener is
attached strictly before the element click is dispatched. -/
theorem listener_attached_before_click :
    hotmailNavigationOps.indexOf NavOp.attachListener <
      hotmailNavigationOps.indexOf NavOp.clickElement ∧
    gmailNavigationOps.indexOf NavOp.attachListener <
      gmailNavigationOps.indexOf NavOp.clickElement := by
  decide

/-- Claim C4: with zero navigation events after the click, the direct
post-click wait elapses at its bounded timeout with the rejection
swallowed, and both settlement loops resolve. -/
theorem no_nav_events_settlement_terminates
    (t0 loopStart st clickTime timeout : Nat) (h : t0 ≤ loopStart) :
    directPostClickWait [] clickTime timeout =
      .timedOutSwallowed (clickTime + timeout) ∧
    (∃ k, settleLoop
        (fun j => hotmailSettleCond st (hotmailObs t0 loopStart [] j))
        (st + 2) 0 = some k) ∧
    (∃ kg, settleLoop
        (fun j => gmailSettleCond (gmailObs t0 loopStart [] j)) 1 1 = some kg) := by
  refine ⟨rfl, ?_, ⟨1, rfl⟩⟩
  apply settleLoop_of_cond _ (st + 1) 0
  show hotmailSettleCond st (hotmailObs t0 loopStart [] (0 + (st + 1))) = true
  simp only [hotmailSettleCond, hotmailObs, eventsBefore, runHotmailSession,
    initSession, NAVIGATION_RECHECK_DELAY, List.filter_nil, List.foldl_nil,
    Bool.not_false, Bool.true_and, decide_eq_true_eq]
  omega

/-- Witness: the zero-event termination statement at concrete session
times and the default timeouts. -/
theorem no_nav_events_settlement_terminates_witness :
    directPostClickWait [] 0 10000 = .timedOutSwallowed (0 + 10000) ∧
    (∃ k, settleLoop
        (fun j => hotmailSettleCond 10000 (hotmailObs 0 0 [] j))
        (10000 + 2) 0 = some k) ∧
    (∃ kg, settleLoop
        (fun j => gmailSettleCond (gmailObs 0 0 [] j)) 1 1 = some kg) :=
  no_nav_events_settlement_terminates 0 0 10000 0 10000 (Nat.le_refl 0)

/-- Claim C5 fails on the code: the text consisting of the character a, a
newline and the character a again contains one line break, yet typeText
issues zero commit-line actions for it, because the source presses Enter
after a line only when the line value differs from the value of the final
line, and here the first line equals the final line. -/
theorem typeText_commit_line_divergence :
    countLineBreaks "a\na".toList = 1 ∧
    (typeTextActions "a\na".toList).count KeyAction.commitLine = 0 ∧
    typeTextActions "a\na".toList =
      [KeyAction.typeChar 'a', KeyAction.typeChar 'a'] := by
  decide

/-- Claim C6: for every supported selector kind, resolving a selector on a
page with zero matching nodes yields a not-found result from the switch,
nothing is thrown, and the wrapped call returns that result. -/
theorem getElement_zero_matches_not_found (p : Page) (sel ty : String)
    (hty : ty ∈ supportedKinds)
    (hq : ∀ s, p.queryAll s = []) (hx : ∀ s, p.xpathAll s = []) :
    ∃ res, getElementCore p sel ty = .ok res ∧ res.isNotFound = true ∧
      getElement p sel ty = some res := by
  have hquery : ∀ s, p.query s = none := fun s => by simp [Page.query, hq]
  have hxp : ∀ s, p.xpathFirst s = none := fun s => by simp [Page.xpathFirst, hx]
  simp only [supportedKinds, List.mem_cons, List.mem_singleton,
    List.not_mem_nil, or_false] at hty
  rcases hty with rfl | rfl | rfl | rfl | rfl | rfl
  · have hc : getElementCore p sel "id" = .ok (optToRes (p.query (idSelector sel))) := rfl
    rw [hquery] at hc
    exact ⟨_, hc, rfl, getElement_eq_ok _ _ _ _ hc⟩
  · have hc : getElementCore p sel "selector" = .ok (optToRes (p.query sel)) := rfl
    rw [hquery] at hc
    exact ⟨_, hc, rfl, getElement_eq_ok _ _ _ _ hc⟩
  · have hc : getElementCore p sel "xpath" = .ok (optToRes (p.xpathFirst sel)) := rfl
    rw [hxp] at hc
    exact ⟨_, hc, rfl, getElement_eq_ok _ _ _ _ hc⟩
  · have hc : getElementCore p sel "class" =
        .ok (optToRes (p.query ("." ++ sel))) := rfl
    rw [hquery] at hc
    exact ⟨_, hc, rfl, getElement_eq_ok _ _ _ _ hc⟩
  · have hc : getElementCore p sel "allSelector" =
        .ok (.many (p.queryAll sel)) := rfl
    rw [hq] at hc
    exact ⟨_, hc, rfl, getElement_eq_ok _ _ _ _ hc⟩
  · have hc : getElementCore p sel "allXpath" =
        .ok (.many (p.xpathAll sel)) := rfl
    rw [hx] at hc
    exact ⟨_, hc, rfl, getElement_eq_ok _ _ _ _ hc⟩

/-- Witness: resolving an xpath on the empty page yields a not-found
result without a throw. -/
theorem getElement_zero_matches_not_found_witness :
    ∃ res, getElementCore emptyPage "foo" "xpath" = .ok res ∧
      res.isNotFound = true ∧ getElement emptyPage "foo" "xpath" = some res :=
  getElement_zero_matches_not_found emptyPage "foo" "xpath" (by decide)
    (fun _ => rfl) (fun _ => rfl)

/-- Claim C7 fails on the code: when an error reaches the catch block of
clearInputByXpath, the diagnostic shorthand object names the identifier
selectorExpression, which is not in scope there, so a reference error is
raised and escapes to the caller instead of the original error being
forwarded with its diagnostics; the sibling clearInputBySelector forwards
as the claim states. -/
theorem clearInputByXpath_catch_rethrows :
    clearInputByXpathCatch "//div" =
      .rethrown "selectorExpression is not defined" ∧
    clearInputBySelectorCatch "#name" =
      .forwarded [("selectorExpression", "#name"), ("type", "selector")] := by
  decide

/-- Claim C8: with the element found, clearInput performs in order one
multi-click whose count is an integer in the inclusive range from 3 to 6,
then a randomized wait, then exactly one Backspace press, and the drawn
count is the same whichever order the bounds are passed to randomNumber. -/
theorem clearInput_action_sequence (r : ℚ) (h0 : 0 ≤ r) (h1 : r < 1) :
    ∃ c : ℤ, clearInputActions r =
        [ClearAction.multiClick c, ClearAction.randomWait,
          ClearAction.pressBackspace] ∧
      3 ≤ c ∧ c ≤ 6 ∧ randomNumber r 3 6 = randomNumber r 6 3 := by
  have heq : randomNumber r 3 6 = ⌊r * 4⌋ + 3 := by
    norm_num [randomNumber]
  refine ⟨randomNumber r 3 6, rfl, ?_, ?_, ?_⟩
  · rw [heq]
    have h4 : (0 : ℚ) ≤ r * 4 := by positivity
    have := Int.floor_nonneg.mpr h4
    omega
  · rw [heq]
    have h4 : r * 4 < ((4 : ℤ) : ℚ) := by push_cast; linarith
    have := Int.floor_lt.mpr h4
    omega
  · rw [heq]
    norm_num [randomNumber]

/-- Witness: the clearInput action sequence at the random draw one half. -/
theorem clearInput_action_sequence_witness :
    ∃ c : ℤ, clearInputActions (1 / 2) =
        [ClearAction.multiClick c, ClearAction.randomWait,
          ClearAction.pressBackspace] ∧
      3 ≤ c ∧ c ≤ 6 ∧ randomNumber (1 / 2) 3 6 = randomNumber (1 / 2) 6 3 :=
  clearInput_action_sequence (1 / 2) (by norm_num) (by norm_num)

/-- Claim C9: randomScroll and scrollToElement are invariant under
swapping each min/max bound pair, and in both the computed end time lies
between the current time plus the normalized lower time bound and the
current time plus the normalized upper time bound. -/
theorem scroll_swap_invariance_and_endTime (now r maxT minT maxS minS off : ℚ)
    (h0 : 0 ≤ r) (h1 : r < 1) :
    randomScrollEval now r maxT minT maxS minS =
      randomScrollEval now r minT maxT minS maxS ∧
    scrollToElementArgs now r maxT minT maxS minS off =
      scrollToElementArgs now r minT maxT minS maxS off ∧
    now + min minT maxT ≤ (randomScrollEval now r maxT minT maxS minS).endTime ∧
    (randomScrollEval now r maxT minT maxS minS).endTime ≤ now + max minT maxT ∧
    now + min minT maxT ≤
      (scrollToElementArgs now r maxT minT maxS minS off).endTime ∧
    (scrollToElementArgs now r maxT minT maxS minS off).endTime ≤
      now + max minT maxT := by
  have hrs : 0 ≤ r * (max minT maxT - min minT maxT) :=
    mul_nonneg h0 (by simp [min_le_max])
  have hru : r * (max minT maxT - min minT maxT) ≤
      1 * (max minT maxT - min minT maxT) :=
    mul_le_mul_of_nonneg_right (le_of_lt h1) (by simp [min_le_max])
  have het : (randomScrollEval now r maxT minT maxS minS).endTime =
      now + r * (max minT maxT - min minT maxT) + min minT maxT := by
    simp [randomScrollEval, normPair_eq_min_max]
  have hes : (scrollToElementArgs now r maxT minT maxS minS off).endTime =
      now + r * (max minT maxT - min minT maxT) + min minT maxT := by
    simp [scrollToElementArgs, EvalArgs.endTime, normPair_eq_min_max]
  refine ⟨?_, ?_, ?_, ?_, ?_, ?_⟩
  · rw [randomScrollEval, randomScrollEval,
      normPair_comm minT maxT, normPair_comm minS maxS]
  · rw [scrollToElementArgs, scrollToElementArgs,
      normPair_comm minT maxT, normPair_comm minS maxS]
  · rw [het]; linarith
  · rw [het]; linarith
  · rw [hes]; linarith
  · rw [hes]; linarith

/-- Witness: the scroll swap invariance and end-time bounds at concrete
swapped bounds. -/
theorem scroll_swap_invariance_and_endTime_witness :
    randomScrollEval 0 (1 / 2) 1 2 3 4 =
      randomScrollEval 0 (1 / 2) 2 1 4 3 ∧
    scrollToElementArgs 0 (1 / 2) 1 2 3 4 5 =
      scrollToElementArgs 0 (1 / 2) 2 1 4 3 5 ∧
    0 + min 2 1 ≤ (randomScrollEval 0 (1 / 2) 1 2 3 4).endTime ∧
    (randomScrollEval 0 (1 / 2) 1 2 3 4).endTime ≤ 0 + max 2 1 ∧
    0 + min 2 1 ≤ (scrollToElementArgs 0 (1 / 2) 1 2 3 4 5).endTime ∧
    (scrollToElementArgs 0 (1 / 2) 1 2 3 4 5).endTime ≤ 0 + max 2 1 :=
  scroll_swap_invariance_and_endTime 0 (1 / 2) 1 2 3 4 5 (by norm_num)
    (by norm_num)

/-- Claim C10 fails on the code: the call site of the scrollToElement page
evaluation passes the offset as the third positional argument while the
callback declares the maximal speed third and the offset fifth, so the
callback offset parameter receives the normalized minimal scrolling
speed; with offset 100 and minimal speed 500 the initial jump lands at
the rect top minus 500, not the rect top minus the offset argument. -/
theorem scrollToElement_initial_jump_divergence :
    scrollToElementInitialJump 1000
      (scrollToElementArgs 0 0 5000 3000 900 500 100) = 500 ∧
    ¬ scrollToElementInitialJump 1000
      (scrollToElementArgs 0 0 5000 3000 900 500 100) = 1000 - 100 := by
  norm_num [scrollToElementInitialJump, scrollToElementArgs, normPair]
